import Mathlib

/-!
Shallow embedding of the Konexion client streaming pipeline
(`konexion_frontend/src/lib/websocket.js`), the model-catalog fetch
(`api.js`) and the refresh-button model selection
(`RefreshModelsButton.svelte`), together with theorems settling the
spec claims about them.

JavaScript values that flow through the handlers are modelled by `JsVal`
(strings, numbers, booleans, `null`, `undefined`); `Option ServerFrame`
models the result of `JSON.parse` on an incoming frame (`none` =
unparseable JSON, caught by the handler's `try/catch`).  Timers are made
explicit: the module-level variable `bufferTimeout` holds the last stored
handle, while `liveTimers` is the set (as a list) of scheduled timers that
have neither fired nor been cancelled, so that "at most one outstanding
timer" is a real property of the model rather than a tautology.
-/

namespace Konexion

/-- The subset of JavaScript runtime values the handlers inspect. -/
inductive JsVal where
  | vStr (s : String)
  | vNum (n : Int)
  | vBool (b : Bool)
  | vNull
  | vUndefined
deriving Repr, DecidableEq

/-- JavaScript `String(x)` on a `JsVal`. -/
def jsString : JsVal → String
  | .vStr s => s
  | .vNum n => toString n
  | .vBool b => if b then "true" else "false"
  | .vNull => "null"
  | .vUndefined => "undefined"

/-- Lines 82-85 of websocket.js: `data.chunk`, coerced with `String()`
when it is not already a string. -/
def jsStringOfChunk : JsVal → String
  | .vStr t => t
  | v => jsString v

/-- JavaScript truthiness of a `JsVal`. -/
def truthy : JsVal → Bool
  | .vStr s => s ≠ ""
  | .vNum n => n ≠ 0
  | .vBool b => b
  | .vNull => false
  | .vUndefined => false

/-- A successfully parsed server frame: the three fields `handleMessage`
reads from the decoded JSON object (`vUndefined` = field absent). -/
structure ServerFrame where
  error : JsVal
  chunk : JsVal
  finish_reason : JsVal
deriving Repr, DecidableEq

/-- A chat message as built by `websocket.js` (timestamps omitted; `id`
is drawn from a counter standing in for `Date.now()` /
`Date.now() + Math.random()`, which exists to make ids unique). -/
structure Message where
  id : Nat
  content : String
  sender : String
  isComplete : Bool
  isError : Bool
deriving Repr, DecidableEq

/-- `BUFFER_FLUSH_INTERVAL` from websocket.js (ms). -/
def BUFFER_FLUSH_INTERVAL : Nat := 16

/-- `MIN_CHUNK_SIZE` from websocket.js (characters). -/
def MIN_CHUNK_SIZE : Nat := 10

/-- The client-side state touched by the streaming handlers: the
`messages` store, the module-level mutable variables of websocket.js
(`currentBotMessage`, `chunkBuffer`, `bufferTimeout`), the stores
`isTyping` / `isLoading` / `isConnected`, plus explicit bookkeeping for
scheduled timers (`liveTimers`, `nextTimerId`, `scheduledDelays`),
message-id generation (`nextMsgId`), emitted store updates
(`updateCount`) and console output (`log`). -/
structure ClientState where
  messages : List Message
  currentBotMessage : Option Message
  chunkBuffer : String
  bufferTimeout : Option Nat
  liveTimers : List Nat
  nextTimerId : Nat
  scheduledDelays : List Nat
  nextMsgId : Nat
  isTyping : Bool
  isLoading : Bool
  isConnected : Bool
  updateCount : Nat
  log : List String
deriving Repr, DecidableEq

/-- The state at page load: empty stores, no pending buffer or timer. -/
def initState : ClientState :=
  { messages := []
    currentBotMessage := none
    chunkBuffer := ""
    bufferTimeout := none
    liveTimers := []
    nextTimerId := 0
    scheduledDelays := []
    nextMsgId := 0
    isTyping := false
    isLoading := false
    isConnected := false
    updateCount := 0
    log := [] }

/-- `clearTimeout(bufferTimeout)` alone (websocket.js lines 141-143):
cancels the stored timer but does not null the variable. -/
def clearBufferTimeout (s : ClientState) : ClientState :=
  match s.bufferTimeout with
  | some h => { s with liveTimers := s.liveTimers.erase h }
  | none => s

/-- `if (bufferTimeout) { clearTimeout(bufferTimeout); bufferTimeout =
null; }` (websocket.js lines 180-183 and 212-215). -/
def clearFlushTimer (s : ClientState) : ClientState :=
  match s.bufferTimeout with
  | some h => { s with liveTimers := s.liveTimers.erase h, bufferTimeout := none }
  | none => s

/-- `bufferTimeout = setTimeout(() => this.flushChunkBuffer(),
BUFFER_FLUSH_INTERVAL)` (websocket.js line 150): registers a fresh live
timer and stores its handle. -/
def scheduleFlushTimer (s : ClientState) : ClientState :=
  { s with bufferTimeout := some s.nextTimerId
           liveTimers := s.liveTimers ++ [s.nextTimerId]
           nextTimerId := s.nextTimerId + 1
           scheduledDelays := s.scheduledDelays ++ [BUFFER_FLUSH_INTERVAL] }

/-- The `messages.update` body shared by flush and complete (websocket.js
lines 168-177 and 198-206): replace the last message when its id matches
the current bot message, otherwise leave the array alone. -/
def updateLastIfId (msgs : List Message) (m : Message) : List Message :=
  match msgs.getLast? with
  | some last => if last.id = m.id then msgs.dropLast ++ [m] else msgs
  | none => msgs

/-- `flushChunkBuffer` (websocket.js lines 158-188). -/
def flushChunkBuffer (s : ClientState) : ClientState :=
  if s.chunkBuffer = "" then s
  else
    match s.currentBotMessage with
    | none => s
    | some m =>
      let m2 : Message := { m with content := m.content ++ s.chunkBuffer }
      clearFlushTimer
        { s with currentBotMessage := some m2
                 chunkBuffer := ""
                 messages := updateLastIfId s.messages m2
                 updateCount := s.updateCount + 1 }

/-- Creation of `currentBotMessage` on the first chunk of a turn
(websocket.js lines 129-138). -/
def ensureBotMessage (s : ClientState) : ClientState :=
  match s.currentBotMessage with
  | some _ => s
  | none =>
    let m : Message :=
      { id := s.nextMsgId, content := "", sender := "bot"
        isComplete := false, isError := false }
    { s with currentBotMessage := some m
             messages := s.messages ++ [m]
             nextMsgId := s.nextMsgId + 1
             updateCount := s.updateCount + 1 }

/-- The `cleanChunk` computation of `handleStreamingChunk` (websocket.js
lines 100-121).  `none` means the chunk is rejected with the "unexpected
chunk format" warning; `some ""` falls into the empty-chunk skip. -/
def cleanChunkOf : JsVal → Option String
  | .vStr s => some s
  | .vNull => some ""
  | .vUndefined => some ""
  | v =>
    let t := jsString v
    if t = "[object Object]" ∨ t = "undefined" ∨ t = "null" then none else some t

/-- Lines 145-151 of websocket.js: flush the buffer when it has reached
the minimum size, otherwise schedule a delayed flush. -/
def flushOrSchedule (s2 : ClientState) : ClientState :=
  if MIN_CHUNK_SIZE ≤ s2.chunkBuffer.length then flushChunkBuffer s2
  else scheduleFlushTimer s2

/-- `handleStreamingChunk` (websocket.js lines 97-156): append the clean
chunk to the buffer, create the bot message if needed, cancel any stored
timer, then flush or schedule. -/
def handleStreamingChunk (chunk : JsVal) (s : ClientState) : ClientState :=
  match cleanChunkOf chunk with
  | none => { s with log := s.log ++ ["Received unexpected chunk format"] }
  | some c =>
    if c = "" then s
    else
      flushOrSchedule
        (clearBufferTimeout
          (ensureBotMessage { s with chunkBuffer := s.chunkBuffer ++ c }))

/-- Lines 196-208 of websocket.js: mark the current bot message complete
and republish it. -/
def completeCurrentMessage (s1 : ClientState) : ClientState :=
  match s1.currentBotMessage with
  | some m =>
    { s1 with messages := updateLastIfId s1.messages { m with isComplete := true }
              currentBotMessage := none
              updateCount := s1.updateCount + 1 }
  | none => s1

/-- `handleStreamingComplete` (websocket.js lines 190-219); the
`finishReason` argument is unused by the source body. -/
def handleStreamingComplete (s : ClientState) : ClientState :=
  { clearFlushTimer
      { completeCurrentMessage (if s.chunkBuffer ≠ "" then flushChunkBuffer s else s) with
          chunkBuffer := "" } with
      isTyping := false, isLoading := false }

/-- The `cleanContent` computation of `addMessage` (websocket.js lines
249-283) restricted to the `JsVal` universe (object contents never reach
it through `handleMessage`). -/
def cleanedContent (content : JsVal) (isErr : Bool) : String :=
  let c0 :=
    match content with
    | .vStr t => t
    | .vNull => ""
    | .vUndefined => ""
    | v => jsString v
  let c1 :=
    if c0 = "[object Object]" ∨ c0 = "undefined" ∨ c0 = "null" then
      (if isErr then "Unknown error occurred" else "")
    else c0
  c1.trim

/-- `addMessage` (websocket.js lines 248-295). -/
def addMessage (content : JsVal) (sender : String) (isErr : Bool)
    (s : ClientState) : ClientState :=
  let newMessage : Message :=
    { id := s.nextMsgId, content := cleanedContent content isErr, sender := sender
      isComplete := true, isError := isErr }
  { s with messages := s.messages ++ [newMessage]
           nextMsgId := s.nextMsgId + 1
           updateCount := s.updateCount + 1 }

/-- `handleMessage` (websocket.js lines 69-95); the argument is the
outcome of `JSON.parse` (`none` = the parse threw, taking the `catch`
branch). -/
def handleMessage (d : Option ServerFrame) (s : ClientState) : ClientState :=
  match d with
  | none =>
    { s with log := s.log ++ ["Error parsing WebSocket message"]
             isLoading := false, isTyping := false }
  | some data =>
    if truthy data.error then
      { addMessage data.error "bot" true s with isTyping := false, isLoading := false }
    else if data.chunk ≠ JsVal.vUndefined ∧ data.chunk ≠ JsVal.vNull then
      handleStreamingChunk (JsVal.vStr (jsStringOfChunk data.chunk)) s
    else if truthy data.finish_reason then
      handleStreamingComplete s
    else s

/-- Externally visible events driving the client state: an incoming
frame (through `handleMessage`), the firing of a scheduled flush timer
(which runs `flushChunkBuffer` and is only enabled while that timer is
live), and a direct `flushChunkBuffer` call. -/
inductive WsEvent where
  | frame (d : Option ServerFrame)
  | timerFire (h : Nat)
  | manualFlush
deriving Repr, DecidableEq

/-- One step of the client state machine. -/
def step (s : ClientState) (e : WsEvent) : ClientState :=
  match e with
  | .frame d => handleMessage d s
  | .timerFire h =>
    if h ∈ s.liveTimers then
      flushChunkBuffer { s with liveTimers := s.liveTimers.erase h }
    else s
  | .manualFlush => flushChunkBuffer s

/-- Run a sequence of events from a state. -/
def runEvents (es : List WsEvent) (s : ClientState) : ClientState :=
  es.foldl step s

/-- A server frame carrying only a chunk. -/
def chunkFrame (c : String) : ServerFrame :=
  { error := .vUndefined, chunk := .vStr c, finish_reason := .vUndefined }

/-- A server frame carrying only a finish_reason. -/
def finishFrame (r : String) : ServerFrame :=
  { error := .vUndefined, chunk := .vUndefined, finish_reason := .vStr r }

/-- A server frame carrying only an error. -/
def errorFrame (e : String) : ServerFrame :=
  { error := .vStr e, chunk := .vUndefined, finish_reason := .vUndefined }

/-- A parsed frame carrying none of the three recognized fields
(e.g. the result of parsing a JSON object with unrelated keys). -/
def malformedFrame : ServerFrame :=
  { error := .vUndefined, chunk := .vUndefined, finish_reason := .vUndefined }

/-- The content of the current bot message, `""` when there is none. -/
def curContent (s : ClientState) : String :=
  match s.currentBotMessage with
  | some m => m.content
  | none => ""

/-- Timer sanity: either no scheduled flush timer is live, or exactly
the one whose handle is stored in `bufferTimeout`. -/
def timerInv (s : ClientState) : Prop :=
  s.liveTimers = [] ∨ ∃ h, s.bufferTimeout = some h ∧ s.liveTimers = [h]

/-- The reconnect-relevant state of a `WebSocketService` instance:
the two counters from the constructor (websocket.js lines 20-24), the
`isConnected` store, and the log of delays passed to `setTimeout(() =>
this.connect(), ...)` by `handleReconnect`. -/
structure WsService where
  reconnectAttempts : Nat
  maxReconnectAttempts : Nat
  connected : Bool
  scheduledConnects : List Nat
deriving Repr, DecidableEq

/-- A freshly constructed service (websocket.js lines 20-24). -/
def initService : WsService :=
  { reconnectAttempts := 0, maxReconnectAttempts := 5
    connected := false, scheduledConnects := [] }

/-- `handleReconnect` (websocket.js lines 297-303). -/
def handleReconnect (svc : WsService) : WsService :=
  if svc.reconnectAttempts < svc.maxReconnectAttempts then
    { svc with
        reconnectAttempts := svc.reconnectAttempts + 1
        scheduledConnects :=
          svc.scheduledConnects ++ [2000 * (svc.reconnectAttempts + 1)] }
  else svc

/-- The `ws.onclose` handler (websocket.js lines 43-47): marks the
session disconnected, then runs `handleReconnect`. -/
def onClose (svc : WsService) : WsService :=
  handleReconnect { svc with connected := false }

/-- The `ws.onopen` handler (websocket.js lines 37-41): marks the
session connected and resets the attempt counter. -/
def onOpen (svc : WsService) : WsService :=
  { svc with connected := true, reconnectAttempts := 0 }

/-- A catalog entry as returned by the models API (`api.js`). -/
structure CatalogModel where
  model_id : String
  context_window : Nat
  owned_by : String
  client_type : String
deriving Repr, DecidableEq

/-- The built-in default catalog returned by `fetchAvailableModels`
when the API fails (api.js lines 15-19; the same three entries appear
as `config.defaultModels` in config.js lines 49-53). -/
def defaultModels : List CatalogModel :=
  [{ model_id := "llama3-8b-8192", context_window := 8192
     owned_by := "meta", client_type := "groq" },
   { model_id := "mixtral-8x7b-32768", context_window := 32768
     owned_by := "mistral", client_type := "groq" },
   { model_id := "gemma-7b-it", context_window := 8192
     owned_by := "google", client_type := "groq" }]

/-- A completed `GET /models` exchange: the response's `ok` flag and its
decoded `models` field (`none` = field absent or null). -/
structure ModelsResponse where
  ok : Bool
  models : Option (List CatalogModel)
deriving Repr, DecidableEq

/-- `fetchAvailableModels` (api.js lines 4-21).  The argument is the
outcome of `fetch` (`none` = the request threw, taking the `catch`
branch, as does the `throw` on a non-ok response). -/
def fetchAvailableModels : Option ModelsResponse → List CatalogModel
  | none => defaultModels
  | some r => if r.ok then r.models.getD [] else defaultModels

/-- The selected-model reconciliation of `handleRefresh`
(RefreshModelsButton.svelte lines 53-59): after a successful refresh,
keep the selection when it still exists, otherwise fall back to the
first refreshed model when there is one. -/
def refreshSelectedModel (updatedModels : List CatalogModel)
    (currentSelected : String) : String :=
  let modelExists := updatedModels.any (fun m => m.model_id == currentSelected)
  if modelExists = false ∧ 0 < updatedModels.length then
    (updatedModels.headD
      { model_id := "", context_window := 0, owned_by := "", client_type := "" }).model_id
  else currentSelected

/-! Helper lemmas: field computations of the small state transformers. -/

theorem clearFlushTimer_bufferTimeout (s : ClientState) :
    (clearFlushTimer s).bufferTimeout = none := by
  unfold clearFlushTimer; split <;> simp_all

theorem clearFlushTimer_chunkBuffer (s : ClientState) :
    (clearFlushTimer s).chunkBuffer = s.chunkBuffer := by
  unfold clearFlushTimer; split <;> rfl

theorem clearFlushTimer_currentBotMessage (s : ClientState) :
    (clearFlushTimer s).currentBotMessage = s.currentBotMessage := by
  unfold clearFlushTimer; split <;> rfl

theorem clearFlushTimer_messages (s : ClientState) :
    (clearFlushTimer s).messages = s.messages := by
  unfold clearFlushTimer; split <;> rfl

theorem clearFlushTimer_updateCount (s : ClientState) :
    (clearFlushTimer s).updateCount = s.updateCount := by
  unfold clearFlushTimer; split <;> rfl

theorem clearFlushTimer_nextTimerId (s : ClientState) :
    (clearFlushTimer s).nextTimerId = s.nextTimerId := by
  unfold clearFlushTimer; split <;> rfl

theorem clearFlushTimer_scheduledDelays (s : ClientState) :
    (clearFlushTimer s).scheduledDelays = s.scheduledDelays := by
  unfold clearFlushTimer; split <;> rfl

theorem clearFlushTimer_liveTimers_of_nil (s : ClientState)
    (h : s.liveTimers = []) : (clearFlushTimer s).liveTimers = [] := by
  unfold clearFlushTimer; split <;> simp_all

theorem clearFlushTimer_liveTimers_of_inv (s : ClientState)
    (h : timerInv s) : (clearFlushTimer s).liveTimers = [] := by
  unfold clearFlushTimer
  rcases h with h | ⟨t, hbt, hlt⟩
  · split <;> simp_all
  · split <;> simp_all

theorem clearBufferTimeout_bufferTimeout (s : ClientState) :
    (clearBufferTimeout s).bufferTimeout = s.bufferTimeout := by
  unfold clearBufferTimeout; split <;> rfl

theorem clearBufferTimeout_chunkBuffer (s : ClientState) :
    (clearBufferTimeout s).chunkBuffer = s.chunkBuffer := by
  unfold clearBufferTimeout; split <;> rfl

theorem clearBufferTimeout_currentBotMessage (s : ClientState) :
    (clearBufferTimeout s).currentBotMessage = s.currentBotMessage := by
  unfold clearBufferTimeout; split <;> rfl

theorem clearBufferTimeout_messages (s : ClientState) :
    (clearBufferTimeout s).messages = s.messages := by
  unfold clearBufferTimeout; split <;> rfl

theorem clearBufferTimeout_updateCount (s : ClientState) :
    (clearBufferTimeout s).updateCount = s.updateCount := by
  unfold clearBufferTimeout; split <;> rfl

theorem clearBufferTimeout_nextTimerId (s : ClientState) :
    (clearBufferTimeout s).nextTimerId = s.nextTimerId := by
  unfold clearBufferTimeout; split <;> rfl

theorem clearBufferTimeout_scheduledDelays (s : ClientState) :
    (clearBufferTimeout s).scheduledDelays = s.scheduledDelays := by
  unfold clearBufferTimeout; split <;> rfl

theorem clearBufferTimeout_liveTimers_of_inv (s : ClientState)
    (h : timerInv s) : (clearBufferTimeout s).liveTimers = [] := by
  unfold clearBufferTimeout
  rcases h with h | ⟨t, hbt, hlt⟩
  · split <;> simp_all
  · split <;> simp_all

theorem ensureBotMessage_of_some (s : ClientState) (m : Message)
    (h : s.currentBotMessage = some m) : ensureBotMessage s = s := by
  unfold ensureBotMessage; split <;> simp_all

theorem ensureBotMessage_chunkBuffer (s : ClientState) :
    (ensureBotMessage s).chunkBuffer = s.chunkBuffer := by
  unfold ensureBotMessage; split <;> rfl

theorem ensureBotMessage_bufferTimeout (s : ClientState) :
    (ensureBotMessage s).bufferTimeout = s.bufferTimeout := by
  unfold ensureBotMessage; split <;> rfl

theorem ensureBotMessage_liveTimers (s : ClientState) :
    (ensureBotMessage s).liveTimers = s.liveTimers := by
  unfold ensureBotMessage; split <;> rfl

theorem ensureBotMessage_nextTimerId (s : ClientState) :
    (ensureBotMessage s).nextTimerId = s.nextTimerId := by
  unfold ensureBotMessage; split <;> rfl

theorem ensureBotMessage_scheduledDelays (s : ClientState) :
    (ensureBotMessage s).scheduledDelays = s.scheduledDelays := by
  unfold ensureBotMessage; split <;> rfl

theorem ensureBotMessage_curContent (s : ClientState) :
    curContent (ensureBotMessage s) = curContent s := by
  unfold ensureBotMessage curContent
  cases h : s.currentBotMessage with
  | some m => simp [h]
  | none => simp [h]

theorem ensureBotMessage_exists_some (s : ClientState) :
    ∃ m : Message, (ensureBotMessage s).currentBotMessage = some m ∧
      m.content = curContent s := by
  unfold ensureBotMessage curContent
  cases h : s.currentBotMessage with
  | some m => simp [h]
  | none => simp [h]

theorem ensureBotMessage_updateCount_le (s : ClientState) :
    (ensureBotMessage s).updateCount ≤ s.updateCount + 1 := by
  unfold ensureBotMessage; split <;> simp

/-! Helper lemmas: strings. -/

theorem string_length_eq_zero_iff (c : String) : c.length = 0 ↔ c = "" := by
  constructor
  · intro h; exact String.ext (List.length_eq_zero.mp h)
  · intro h; simp [h]

theorem string_append_ne_empty (a c : String) (hc : c ≠ "") : a ++ c ≠ "" := by
  intro h
  have hl := congrArg String.length h
  rw [String.length_append] at hl
  simp only [String.length_empty] at hl
  exact hc ((string_length_eq_zero_iff c).mp (by omega))

theorem string_foldl_append_shift (cs : List String) (a : String) :
    cs.foldl (fun r s => r ++ s) a = a ++ cs.foldl (fun r s => r ++ s) "" := by
  induction cs generalizing a with
  | nil => simp
  | cons c cs ih =>
    simp only [List.foldl_cons]
    rw [ih (a ++ c), ih ("" ++ c), String.append_assoc]
    simp

theorem string_join_cons (c : String) (cs : List String) :
    String.join (c :: cs) = c ++ String.join cs := by
  simp only [String.join, List.foldl_cons]
  rw [string_foldl_append_shift cs ("" ++ c)]
  simp

/-! Helper lemmas: the timer invariant is preserved by every event. -/

theorem timerInv_clearFlushTimer (s : ClientState) (h : timerInv s) :
    timerInv (clearFlushTimer s) :=
  Or.inl (clearFlushTimer_liveTimers_of_inv s h)

theorem timerInv_scheduleFlushTimer (s : ClientState)
    (h : s.liveTimers = []) : timerInv (scheduleFlushTimer s) := by
  refine Or.inr ⟨s.nextTimerId, rfl, ?_⟩
  show s.liveTimers ++ [s.nextTimerId] = [s.nextTimerId]
  simp [h]

theorem timerInv_flushChunkBuffer (s : ClientState) (h : timerInv s) :
    timerInv (flushChunkBuffer s) := by
  unfold flushChunkBuffer
  split
  · exact h
  · split
    · exact h
    · exact timerInv_clearFlushTimer _ h

theorem timerInv_ensureBotMessage (s : ClientState) (h : timerInv s) :
    timerInv (ensureBotMessage s) := by
  unfold ensureBotMessage; split
  · exact h
  · exact h

theorem timerInv_handleStreamingChunk (chunk : JsVal) (s : ClientState)
    (h : timerInv s) : timerInv (handleStreamingChunk chunk s) := by
  unfold handleStreamingChunk
  split
  · exact h
  · rename_i c heq
    split
    · exact h
    · have h1 : timerInv (ensureBotMessage { s with chunkBuffer := s.chunkBuffer ++ c }) :=
        timerInv_ensureBotMessage _ h
      have h2 := clearBufferTimeout_liveTimers_of_inv _ h1
      unfold flushOrSchedule
      split
      · exact timerInv_flushChunkBuffer _ (Or.inl h2)
      · exact timerInv_scheduleFlushTimer _ h2

theorem timerInv_handleStreamingComplete (s : ClientState) (h : timerInv s) :
    timerInv (handleStreamingComplete s) := by
  have h1 : timerInv (if s.chunkBuffer ≠ "" then flushChunkBuffer s else s) := by
    split
    · exact timerInv_flushChunkBuffer _ h
    · exact h
  have h2 : timerInv (completeCurrentMessage
      (if s.chunkBuffer ≠ "" then flushChunkBuffer s else s)) := by
    unfold completeCurrentMessage
    split
    · exact h1
    · exact h1
  exact Or.inl (clearFlushTimer_liveTimers_of_inv _ h2)

theorem timerInv_addMessage (content : JsVal) (sender : String) (isErr : Bool)
    (s : ClientState) (h : timerInv s) : timerInv (addMessage content sender isErr s) :=
  h

theorem timerInv_handleMessage (d : Option ServerFrame) (s : ClientState)
    (h : timerInv s) : timerInv (handleMessage d s) := by
  unfold handleMessage
  split
  · exact h
  · split
    · exact h
    · split
      · exact timerInv_handleStreamingChunk _ _ h
      · split
        · exact timerInv_handleStreamingComplete _ h
        · exact h

theorem timerInv_step (s : ClientState) (e : WsEvent) (h : timerInv s) :
    timerInv (step s e) := by
  cases e with
  | frame d => exact timerInv_handleMessage d s h
  | timerFire t =>
    show timerInv (if t ∈ s.liveTimers then
      flushChunkBuffer { s with liveTimers := s.liveTimers.erase t } else s)
    split
    · rename_i ht
      rcases h with h0 | ⟨u, hbt, hlt⟩
      · rw [h0] at ht; simp at ht
      · refine timerInv_flushChunkBuffer _ (Or.inl ?_)
        show (s.liveTimers.erase t) = []
        rw [hlt] at ht ⊢
        simp at ht
        subst ht
        simp
    · exact h
  | manualFlush => exact timerInv_flushChunkBuffer s h

theorem timerInv_runEvents (es : List WsEvent) (s : ClientState)
    (h : timerInv s) : timerInv (runEvents es s) := by
  induction es generalizing s with
  | nil => exact h
  | cons e es ih => exact ih (step s e) (timerInv_step s e h)


theorem curContent_congr (s1 s2 : ClientState)
    (h : s1.currentBotMessage = s2.currentBotMessage) :
    curContent s1 = curContent s2 := by
  unfold curContent; rw [h]

theorem scheduleFlushTimer_chunkBuffer (s : ClientState) :
    (scheduleFlushTimer s).chunkBuffer = s.chunkBuffer := rfl

theorem scheduleFlushTimer_currentBotMessage (s : ClientState) :
    (scheduleFlushTimer s).currentBotMessage = s.currentBotMessage := rfl

theorem scheduleFlushTimer_bufferTimeout (s : ClientState) :
    (scheduleFlushTimer s).bufferTimeout = some s.nextTimerId := rfl

theorem scheduleFlushTimer_liveTimers (s : ClientState) :
    (scheduleFlushTimer s).liveTimers = s.liveTimers ++ [s.nextTimerId] := rfl

theorem scheduleFlushTimer_scheduledDelays (s : ClientState) :
    (scheduleFlushTimer s).scheduledDelays =
      s.scheduledDelays ++ [BUFFER_FLUSH_INTERVAL] := rfl

theorem handleStreamingChunk_core (s : ClientState) (c : String) (hc : c ≠ "") :
    handleStreamingChunk (.vStr c) s =
      flushOrSchedule
        (clearBufferTimeout
          (ensureBotMessage { s with chunkBuffer := s.chunkBuffer ++ c })) := by
  unfold handleStreamingChunk
  simp only [cleanChunkOf]
  rw [if_neg hc]

/-- Claim C3: `flushChunkBuffer` is a no-op when the pending buffer is
empty (the whole state, messages included, is unchanged and no update is
emitted); when the buffer is non-empty and a current assistant message
exists, one call appends the entire buffer to that message's content,
empties the buffer, emits exactly one messages-store update and
republishes the last message. -/
theorem claim_C3 (s : ClientState) :
    (s.chunkBuffer = "" → flushChunkBuffer s = s) ∧
    (∀ m : Message, s.currentBotMessage = some m → s.chunkBuffer ≠ "" →
      (flushChunkBuffer s).currentBotMessage =
        some { m with content := m.content ++ s.chunkBuffer } ∧
      (flushChunkBuffer s).chunkBuffer = "" ∧
      (flushChunkBuffer s).updateCount = s.updateCount + 1 ∧
      (flushChunkBuffer s).messages =
        updateLastIfId s.messages { m with content := m.content ++ s.chunkBuffer }) := by
  constructor
  · intro h
    simp [flushChunkBuffer, h]
  · intro m hm hb
    simp only [flushChunkBuffer, if_neg hb, hm]
    exact ⟨clearFlushTimer_currentBotMessage _, clearFlushTimer_chunkBuffer _,
      clearFlushTimer_updateCount _, clearFlushTimer_messages _⟩

/-- Concrete instantiation of the theorem above. -/
theorem claim_C3_witness :
    ((initState.chunkBuffer = "" → flushChunkBuffer initState = initState) ∧
      flushChunkBuffer initState = initState) ∧
    ((flushChunkBuffer
        { initState with
            currentBotMessage := some ⟨0, "Hi", "bot", false, false⟩
            messages := [⟨0, "Hi", "bot", false, false⟩]
            chunkBuffer := "!" }).currentBotMessage =
      some ⟨0, "Hi!", "bot", false, false⟩ ∧
      (flushChunkBuffer
        { initState with
            currentBotMessage := some ⟨0, "Hi", "bot", false, false⟩
            messages := [⟨0, "Hi", "bot", false, false⟩]
            chunkBuffer := "!" }).messages =
      [⟨0, "Hi!", "bot", false, false⟩]) := by
  refine ⟨⟨(claim_C3 initState).1, (claim_C3 initState).1 rfl⟩, ?_⟩
  have h := (claim_C3
    { initState with
        currentBotMessage := some ⟨0, "Hi", "bot", false, false⟩
        messages := [⟨0, "Hi", "bot", false, false⟩]
        chunkBuffer := "!" }).2
    ⟨0, "Hi", "bot", false, false⟩
    rfl (by decide)
  refine ⟨h.1, ?_⟩
  rw [h.2.2.2]
  decide

/-- Claim C4: along every sequence of events from the initial state
(incoming frames, timer firings, direct flush calls) at most one flush
timer is outstanding: each chunk cancels the stored timer before
scheduling a new one, and flush and completion clear it, so timers are
never stacked. -/
theorem claim_C4 (es : List WsEvent) :
    ((runEvents es initState).liveTimers).length ≤ 1 := by
  have h := timerInv_runEvents es initState (Or.inl rfl)
  rcases h with h | ⟨t, hbt, hlt⟩
  · simp [h]
  · simp [hlt]

/-- Claim C2: a session receiving the chunk frames "He", "llo" followed
by a finish_reason frame ends with exactly one assistant message whose
content is "Hello" and whose isComplete flag is true, with empty pending
buffer and no pending flush timer; in general `handleStreamingComplete`
forces out the buffer, clears the stored timer handle, drops the current
bot message reference and resets the typing and loading stores. -/
theorem claim_C2 :
    ((runEvents [WsEvent.frame (some (chunkFrame "He")),
        WsEvent.frame (some (chunkFrame "llo")),
        WsEvent.frame (some (finishFrame "stop"))] initState).messages =
      [{ id := 0, content := "Hello", sender := "bot",
         isComplete := true, isError := false }] ∧
     (runEvents [WsEvent.frame (some (chunkFrame "He")),
        WsEvent.frame (some (chunkFrame "llo")),
        WsEvent.frame (some (finishFrame "stop"))] initState).chunkBuffer = "" ∧
     (runEvents [WsEvent.frame (some (chunkFrame "He")),
        WsEvent.frame (some (chunkFrame "llo")),
        WsEvent.frame (some (finishFrame "stop"))] initState).bufferTimeout = none ∧
     (runEvents [WsEvent.frame (some (chunkFrame "He")),
        WsEvent.frame (some (chunkFrame "llo")),
        WsEvent.frame (some (finishFrame "stop"))] initState).liveTimers = []) ∧
    (∀ s : ClientState,
      (handleStreamingComplete s).chunkBuffer = "" ∧
      (handleStreamingComplete s).bufferTimeout = none ∧
      (handleStreamingComplete s).currentBotMessage = none ∧
      (handleStreamingComplete s).isTyping = false ∧
      (handleStreamingComplete s).isLoading = false) := by
  constructor
  · exact ⟨by decide, by decide, by decide, by decide⟩
  · intro s
    refine ⟨?_, ?_, ?_, rfl, rfl⟩
    · show (clearFlushTimer _).chunkBuffer = ""
      rw [clearFlushTimer_chunkBuffer]
    · show (clearFlushTimer _).bufferTimeout = none
      exact clearFlushTimer_bufferTimeout _
    · show (clearFlushTimer _).currentBotMessage = none
      rw [clearFlushTimer_currentBotMessage]
      show (completeCurrentMessage _).currentBotMessage = none
      unfold completeCurrentMessage
      split <;> simp_all


/-- Claim C1: `handleStreamingChunk` accumulates the chunk text into the
pending buffer and flushes in the same call if and only if the pending
buffer has reached `MIN_CHUNK_SIZE` (= 10); otherwise the buffer keeps the
accumulated text, no content is flushed, and exactly one flush timer with
delay `BUFFER_FLUSH_INTERVAL` is pending afterwards (stated for chunks
carrying text, from any state satisfying the timer invariant). -/
theorem claim_C1 (s : ClientState) (c : String) (hinv : timerInv s) (hc : c ≠ "") :
    MIN_CHUNK_SIZE = 10 ∧
    (MIN_CHUNK_SIZE ≤ (s.chunkBuffer ++ c).length →
      (handleStreamingChunk (.vStr c) s).chunkBuffer = "" ∧
      (handleStreamingChunk (.vStr c) s).liveTimers = [] ∧
      (handleStreamingChunk (.vStr c) s).bufferTimeout = none ∧
      curContent (handleStreamingChunk (.vStr c) s) =
        curContent s ++ s.chunkBuffer ++ c) ∧
    ((s.chunkBuffer ++ c).length < MIN_CHUNK_SIZE →
      (handleStreamingChunk (.vStr c) s).chunkBuffer = s.chunkBuffer ++ c ∧
      (handleStreamingChunk (.vStr c) s).liveTimers = [s.nextTimerId] ∧
      (handleStreamingChunk (.vStr c) s).bufferTimeout = some s.nextTimerId ∧
      (handleStreamingChunk (.vStr c) s).scheduledDelays =
        s.scheduledDelays ++ [BUFFER_FLUSH_INTERVAL] ∧
      curContent (handleStreamingChunk (.vStr c) s) = curContent s) := by
  rw [handleStreamingChunk_core s c hc]
  set A := ensureBotMessage { s with chunkBuffer := s.chunkBuffer ++ c } with hA
  set B := clearBufferTimeout A with hB
  have hBbuf : B.chunkBuffer = s.chunkBuffer ++ c := by
    rw [hB, clearBufferTimeout_chunkBuffer, hA, ensureBotMessage_chunkBuffer]
  have hBlive : B.liveTimers = [] := by
    rw [hB]
    exact clearBufferTimeout_liveTimers_of_inv _ (timerInv_ensureBotMessage _ hinv)
  have hBnext : B.nextTimerId = s.nextTimerId := by
    rw [hB, clearBufferTimeout_nextTimerId, hA, ensureBotMessage_nextTimerId]
  have hBdel : B.scheduledDelays = s.scheduledDelays := by
    rw [hB, clearBufferTimeout_scheduledDelays, hA, ensureBotMessage_scheduledDelays]
  obtain ⟨m2, hm2, hm2c⟩ :=
    ensureBotMessage_exists_some { s with chunkBuffer := s.chunkBuffer ++ c }
  have hBcur : B.currentBotMessage = some m2 := by
    rw [hB, clearBufferTimeout_currentBotMessage, hA]
    exact hm2
  have hm2c2 : m2.content = curContent s := hm2c
  refine ⟨rfl, ?_, ?_⟩
  · intro hlen
    have hcond : MIN_CHUNK_SIZE ≤ B.chunkBuffer.length := by rw [hBbuf]; exact hlen
    have hBne : B.chunkBuffer ≠ "" := by
      rw [hBbuf]; exact string_append_ne_empty _ _ hc
    unfold flushOrSchedule
    rw [if_pos hcond]
    simp only [flushChunkBuffer, if_neg hBne, hBcur]
    refine ⟨?_, ?_, ?_, ?_⟩
    · rw [clearFlushTimer_chunkBuffer]
    · exact clearFlushTimer_liveTimers_of_nil _ hBlive
    · exact clearFlushTimer_bufferTimeout _
    · unfold curContent
      rw [clearFlushTimer_currentBotMessage]
      show m2.content ++ B.chunkBuffer = _
      rw [hm2c2, hBbuf, String.append_assoc]
      exact rfl
  · intro hlen
    have hcond : ¬ MIN_CHUNK_SIZE ≤ B.chunkBuffer.length := by rw [hBbuf]; omega
    unfold flushOrSchedule
    rw [if_neg hcond]
    refine ⟨?_, ?_, ?_, ?_, ?_⟩
    · rw [scheduleFlushTimer_chunkBuffer, hBbuf]
    · rw [scheduleFlushTimer_liveTimers, hBlive, hBnext]
      simp
    · rw [scheduleFlushTimer_bufferTimeout, hBnext]
    · rw [scheduleFlushTimer_scheduledDelays, hBdel]
    · unfold curContent
      rw [scheduleFlushTimer_currentBotMessage, hBcur]
      show m2.content = _
      rw [hm2c2]
      rfl

/-- Concrete instantiation of the theorem above. -/
theorem claim_C1_witness :
    (timerInv initState ∧ "ab" ≠ "" ∧
      (initState.chunkBuffer ++ "ab").length < MIN_CHUNK_SIZE ∧
      MIN_CHUNK_SIZE ≤ (initState.chunkBuffer ++ "0123456789").length) ∧
    (handleStreamingChunk (.vStr "ab") initState).chunkBuffer = "ab" ∧
    (handleStreamingChunk (.vStr "ab") initState).bufferTimeout =
      some initState.nextTimerId ∧
    (handleStreamingChunk (.vStr "0123456789") initState).chunkBuffer = "" := by
  refine ⟨⟨Or.inl rfl, by decide, by decide, by decide⟩, ?_, ?_, ?_⟩
  · exact ((claim_C1 initState "ab" (Or.inl rfl) (by decide)).2.2 (by decide)).1
  · exact ((claim_C1 initState "ab" (Or.inl rfl) (by decide)).2.2 (by decide)).2.2.1
  · exact ((claim_C1 initState "0123456789" (Or.inl rfl) (by decide)).2.1 (by decide)).1


theorem string_append_empty (a : String) : a ++ "" = a := by
  apply String.ext
  simp [String.data_append]

theorem string_empty_append (a : String) : "" ++ a = a := by
  apply String.ext
  simp [String.data_append]

theorem updateLastIfId_singleton (m m2 : Message) (h : m2.id = m.id) :
    updateLastIfId [m] m2 = [m2] := by
  unfold updateLastIfId
  simp [h]

theorem scheduleFlushTimer_messages (s : ClientState) :
    (scheduleFlushTimer s).messages = s.messages := rfl

theorem ensureBotMessage_of_none (s : ClientState)
    (h : s.currentBotMessage = none) :
    ensureBotMessage s =
      { s with currentBotMessage := some ⟨s.nextMsgId, "", "bot", false, false⟩
               messages := s.messages ++ [⟨s.nextMsgId, "", "bot", false, false⟩]
               nextMsgId := s.nextMsgId + 1
               updateCount := s.updateCount + 1 } := by
  unfold ensureBotMessage
  rw [h]

theorem runEvents_cons (e : WsEvent) (es : List WsEvent) (s : ClientState) :
    runEvents (e :: es) s = runEvents es (step s e) := rfl

theorem runEvents_append (es1 es2 : List WsEvent) (s : ClientState) :
    runEvents (es1 ++ es2) s = runEvents es2 (runEvents es1 s) := by
  simp [runEvents, List.foldl_append]

theorem step_chunkFrame (s : ClientState) (c : String) :
    step s (WsEvent.frame (some (chunkFrame c))) =
      handleStreamingChunk (.vStr c) s := rfl

theorem step_finishFrame (s : ClientState) (r : String) (hr : r ≠ "") :
    step s (WsEvent.frame (some (finishFrame r))) = handleStreamingComplete s := by
  simp [step, handleMessage, finishFrame, truthy, hr]

theorem flushChunkBuffer_spec (s : ClientState) (m : Message)
    (hm : s.currentBotMessage = some m) (hb : s.chunkBuffer ≠ "") :
    (flushChunkBuffer s).currentBotMessage =
      some { m with content := m.content ++ s.chunkBuffer } ∧
    (flushChunkBuffer s).messages =
      updateLastIfId s.messages { m with content := m.content ++ s.chunkBuffer } ∧
    (flushChunkBuffer s).chunkBuffer = "" ∧
    (flushChunkBuffer s).updateCount = s.updateCount + 1 ∧
    (flushChunkBuffer s).bufferTimeout = none := by
  simp only [flushChunkBuffer, if_neg hb, hm]
  exact ⟨clearFlushTimer_currentBotMessage _, clearFlushTimer_messages _,
    clearFlushTimer_chunkBuffer _, clearFlushTimer_updateCount _,
    clearFlushTimer_bufferTimeout _⟩

theorem flushOrSchedule_turn (s : ClientState) (m : Message)
    (h1 : s.currentBotMessage = some m) (h2 : s.messages = [m])
    (hb : s.chunkBuffer ≠ "") :
    ∃ m2 : Message,
      (flushOrSchedule (clearBufferTimeout s)).currentBotMessage = some m2 ∧
      (flushOrSchedule (clearBufferTimeout s)).messages = [m2] ∧
      m2.content ++ (flushOrSchedule (clearBufferTimeout s)).chunkBuffer =
        m.content ++ s.chunkBuffer := by
  set B := clearBufferTimeout s with hB
  have hBbuf : B.chunkBuffer = s.chunkBuffer := by
    rw [hB, clearBufferTimeout_chunkBuffer]
  have hBcur : B.currentBotMessage = some m := by
    rw [hB, clearBufferTimeout_currentBotMessage]; exact h1
  have hBmsgs : B.messages = [m] := by
    rw [hB, clearBufferTimeout_messages]; exact h2
  have hBne : B.chunkBuffer ≠ "" := by rw [hBbuf]; exact hb
  obtain ⟨hfc, hfm, hfb, hfu, hft⟩ := flushChunkBuffer_spec B m hBcur hBne
  unfold flushOrSchedule
  split
  · refine ⟨{ m with content := m.content ++ B.chunkBuffer }, hfc, ?_, ?_⟩
    · rw [hfm, hBmsgs]
      exact updateLastIfId_singleton _ _ rfl
    · rw [hfb, string_append_empty]
      show m.content ++ B.chunkBuffer = _
      rw [hBbuf]
  · refine ⟨m, ?_, ?_, ?_⟩
    · rw [scheduleFlushTimer_currentBotMessage]; exact hBcur
    · rw [scheduleFlushTimer_messages]; exact hBmsgs
    · rw [scheduleFlushTimer_chunkBuffer, hBbuf]

theorem chunkStep_turn (s : ClientState) (m : Message) (c : String)
    (h1 : s.currentBotMessage = some m) (h2 : s.messages = [m]) (hc : c ≠ "") :
    ∃ m2 : Message,
      (handleStreamingChunk (.vStr c) s).currentBotMessage = some m2 ∧
      (handleStreamingChunk (.vStr c) s).messages = [m2] ∧
      m2.content ++ (handleStreamingChunk (.vStr c) s).chunkBuffer =
        m.content ++ s.chunkBuffer ++ c := by
  rw [handleStreamingChunk_core s c hc,
    ensureBotMessage_of_some { s with chunkBuffer := s.chunkBuffer ++ c } m h1]
  obtain ⟨m2, ha, hb2, hc2⟩ :=
    flushOrSchedule_turn { s with chunkBuffer := s.chunkBuffer ++ c } m h1 h2
      (string_append_ne_empty _ _ hc)
  exact ⟨m2, ha, hb2,
    hc2.trans (String.append_assoc m.content s.chunkBuffer c).symm⟩

theorem firstChunk_turn (s : ClientState) (c : String)
    (h1 : s.currentBotMessage = none) (h2 : s.messages = [])
    (h3 : s.chunkBuffer = "") (hc : c ≠ "") :
    ∃ m2 : Message,
      (handleStreamingChunk (.vStr c) s).currentBotMessage = some m2 ∧
      (handleStreamingChunk (.vStr c) s).messages = [m2] ∧
      m2.content ++ (handleStreamingChunk (.vStr c) s).chunkBuffer = c := by
  rw [handleStreamingChunk_core s c hc]
  have h1x : ({ s with chunkBuffer := s.chunkBuffer ++ c } : ClientState).currentBotMessage = none := h1
  have hEcur : (ensureBotMessage
      { s with chunkBuffer := s.chunkBuffer ++ c }).currentBotMessage =
      some ⟨s.nextMsgId, "", "bot", false, false⟩ := by
    rw [ensureBotMessage_of_none _ h1x]
  have hEmsgs : (ensureBotMessage
      { s with chunkBuffer := s.chunkBuffer ++ c }).messages =
      [(⟨s.nextMsgId, "", "bot", false, false⟩ : Message)] := by
    rw [ensureBotMessage_of_none _ h1x]
    show s.messages ++ [(⟨s.nextMsgId, "", "bot", false, false⟩ : Message)] = _
    rw [h2]
    exact List.nil_append _
  have hEbuf : (ensureBotMessage
      { s with chunkBuffer := s.chunkBuffer ++ c }).chunkBuffer =
      s.chunkBuffer ++ c := by
    rw [ensureBotMessage_chunkBuffer]
  obtain ⟨m2, ha, hb2, hc2⟩ :=
    flushOrSchedule_turn (ensureBotMessage { s with chunkBuffer := s.chunkBuffer ++ c })
      ⟨s.nextMsgId, "", "bot", false, false⟩ hEcur hEmsgs
      (by rw [hEbuf]; exact string_append_ne_empty _ _ hc)
  refine ⟨m2, ha, hb2, ?_⟩
  rw [hc2, hEbuf]
  show "" ++ (s.chunkBuffer ++ c) = c
  rw [string_empty_append, h3, string_empty_append]

theorem runChunks_turn (cs : List String) (s : ClientState) (m : Message)
    (h1 : s.currentBotMessage = some m) (h2 : s.messages = [m])
    (hcs : ∀ x ∈ cs, x ≠ "") :
    ∃ m2 : Message,
      (runEvents (cs.map fun x => WsEvent.frame (some (chunkFrame x))) s).currentBotMessage = some m2 ∧
      (runEvents (cs.map fun x => WsEvent.frame (some (chunkFrame x))) s).messages = [m2] ∧
      m2.content ++ (runEvents (cs.map fun x => WsEvent.frame (some (chunkFrame x))) s).chunkBuffer =
        m.content ++ s.chunkBuffer ++ String.join cs := by
  induction cs generalizing s m with
  | nil =>
    refine ⟨m, h1, h2, ?_⟩
    show m.content ++ s.chunkBuffer = _
    rw [show String.join [] = "" from rfl, string_append_empty]
  | cons c cs ih =>
    obtain ⟨m1, ha, hb, hcnt⟩ := chunkStep_turn s m c h1 h2 (hcs c (by simp))
    obtain ⟨m2, ha2, hb2, hcnt2⟩ :=
      ih (handleStreamingChunk (.vStr c) s) m1 ha hb (fun x hx => hcs x (by simp [hx]))
    have hrun : runEvents ((c :: cs).map fun x => WsEvent.frame (some (chunkFrame x))) s =
        runEvents (cs.map fun x => WsEvent.frame (some (chunkFrame x)))
          (handleStreamingChunk (.vStr c) s) := rfl
    rw [hrun]
    refine ⟨m2, ha2, hb2, ?_⟩
    rw [hcnt2, hcnt, String.append_assoc (m.content ++ s.chunkBuffer) c, string_join_cons]

theorem complete_turn (s : ClientState) (m : Message)
    (h1 : s.currentBotMessage = some m) (h2 : s.messages = [m]) :
    (handleStreamingComplete s).messages =
      [{ m with content := m.content ++ s.chunkBuffer, isComplete := true }] := by
  show (clearFlushTimer { completeCurrentMessage
      (if s.chunkBuffer ≠ "" then flushChunkBuffer s else s) with chunkBuffer := "" }).messages = _
  rw [clearFlushTimer_messages]
  show (completeCurrentMessage (if s.chunkBuffer ≠ "" then flushChunkBuffer s else s)).messages = _
  by_cases hb : s.chunkBuffer = ""
  · rw [if_neg (by simp [hb])]
    unfold completeCurrentMessage
    rw [h1]
    show updateLastIfId s.messages { m with isComplete := true } = _
    rw [h2, updateLastIfId_singleton m { m with isComplete := true } rfl, hb,
      string_append_empty]
  · rw [if_pos hb]
    obtain ⟨hfc, hfm, hfb, hfu, hft⟩ := flushChunkBuffer_spec s m h1 hb
    unfold completeCurrentMessage
    rw [hfc]
    show updateLastIfId (flushChunkBuffer s).messages _ = _
    rw [hfm, h2,
      updateLastIfId_singleton m { m with content := m.content ++ s.chunkBuffer } rfl]
    simp [updateLastIfId]

/-- Claim C6: delta delivery within one session is strictly FIFO with no
reordering and no dropping: for every finite sequence of non-empty chunk
frames followed by a completion frame, the final message list holds
exactly one assistant message whose content is the concatenation of the
chunk texts in arrival order, marked complete. -/
theorem claim_C6 (c : String) (cs : List String) (r : String)
    (hc : c ≠ "") (hcs : ∀ x ∈ cs, x ≠ "") (hr : r ≠ "") :
    ∃ m : Message,
      (runEvents ((c :: cs).map (fun x => WsEvent.frame (some (chunkFrame x))) ++
          [WsEvent.frame (some (finishFrame r))]) initState).messages = [m] ∧
      m.content = String.join (c :: cs) ∧
      m.isComplete = true := by
  rw [runEvents_append]
  have hsplit : runEvents ((c :: cs).map fun x => WsEvent.frame (some (chunkFrame x))) initState =
      runEvents (cs.map fun x => WsEvent.frame (some (chunkFrame x)))
        (handleStreamingChunk (.vStr c) initState) := rfl
  rw [hsplit]
  obtain ⟨m1, h1a, h1b, h1c⟩ := firstChunk_turn initState c rfl rfl rfl hc
  obtain ⟨m2, h2a, h2b, h2c⟩ :=
    runChunks_turn cs (handleStreamingChunk (.vStr c) initState) m1 h1a h1b hcs
  have hfin : runEvents [WsEvent.frame (some (finishFrame r))]
      (runEvents (cs.map fun x => WsEvent.frame (some (chunkFrame x)))
        (handleStreamingChunk (.vStr c) initState)) =
      handleStreamingComplete
        (runEvents (cs.map fun x => WsEvent.frame (some (chunkFrame x)))
          (handleStreamingChunk (.vStr c) initState)) := by
    show step _ (WsEvent.frame (some (finishFrame r))) = _
    exact step_finishFrame _ r hr
  rw [hfin]
  rw [complete_turn _ m2 h2a h2b]
  refine ⟨_, rfl, ?_, rfl⟩
  show m2.content ++ _ = _
  rw [h2c, h1c, string_join_cons]

/-- Concrete instantiation of the theorem above. -/
theorem claim_C6_witness :
    ("He" ≠ "" ∧ (∀ x ∈ ["llo"], x ≠ "") ∧ "stop" ≠ "") ∧
    ∃ m : Message,
      (runEvents ((["He", "llo"]).map (fun x => WsEvent.frame (some (chunkFrame x))) ++
          [WsEvent.frame (some (finishFrame "stop"))]) initState).messages = [m] ∧
      m.content = String.join ["He", "llo"] ∧
      m.isComplete = true :=
  ⟨⟨by decide, by decide, by decide⟩,
    claim_C6 "He" ["llo"] "stop" (by decide) (by decide) (by decide)⟩


/-- Claim C5: on connection loss the client reconnects with linearly
increasing backoff — the delay scheduled before the n-th attempt is
n × 2000 ms — bounded by `maxReconnectAttempts` (5 in the constructor):
once the counter has reached the bound, a further close schedules no
reconnect and only leaves the session marked disconnected; a successful
open resets the attempt counter to zero. -/
theorem claim_C5 (svc : WsService) :
    (svc.reconnectAttempts < svc.maxReconnectAttempts →
      (onClose svc).reconnectAttempts = svc.reconnectAttempts + 1 ∧
      (onClose svc).scheduledConnects =
        svc.scheduledConnects ++ [2000 * (svc.reconnectAttempts + 1)] ∧
      (onClose svc).connected = false) ∧
    (svc.maxReconnectAttempts ≤ svc.reconnectAttempts →
      onClose svc = { svc with connected := false }) ∧
    (onOpen svc).reconnectAttempts = 0 ∧
    initService.maxReconnectAttempts = 5 := by
  refine ⟨?_, ?_, rfl, rfl⟩
  · intro h
    unfold onClose handleReconnect
    rw [if_pos h]
    exact ⟨rfl, rfl, rfl⟩
  · intro h
    unfold onClose handleReconnect
    rw [if_neg (Nat.not_lt.mpr h)]

/-- Concrete instantiation of the theorem above. -/
theorem claim_C5_witness :
    (initService.reconnectAttempts < initService.maxReconnectAttempts ∧
      ({ initService with reconnectAttempts := 5 } : WsService).maxReconnectAttempts ≤
        ({ initService with reconnectAttempts := 5 } : WsService).reconnectAttempts) ∧
    (onClose initService).reconnectAttempts = 1 ∧
    (onClose initService).scheduledConnects = [2000] ∧
    onClose { initService with reconnectAttempts := 5 } =
      { ({ initService with reconnectAttempts := 5 } : WsService) with connected := false } ∧
    (onOpen initService).reconnectAttempts = 0 := by
  refine ⟨⟨by decide, by decide⟩, ?_, ?_, ?_, ?_⟩
  · exact ((claim_C5 initService).1 (by decide)).1
  · rw [((claim_C5 initService).1 (by decide)).2.1]
    decide
  · exact (claim_C5 { initService with reconnectAttempts := 5 }).2.1 (by decide)
  · exact (claim_C5 initService).2.2.1

/-- Claim C7 (amended): a frame that decodes to none of the three
recognized server-frame kinds is dropped: unparseable JSON takes the
catch branch, which logs a parse error and resets the loading and typing
stores; a parsed frame matching none of the three kinds is dropped
silently, leaving the whole state — the console log included — unchanged.
In both cases no message or content change is surfaced to the user, and
totality of `handleMessage` models that the handler never throws. -/
theorem claim_C7 (s : ClientState) (d : ServerFrame)
    (h1 : truthy d.error = false)
    (h2 : d.chunk = JsVal.vUndefined ∨ d.chunk = JsVal.vNull)
    (h3 : truthy d.finish_reason = false) :
    handleMessage (some d) s = s ∧
    (handleMessage none s).messages = s.messages ∧
    (handleMessage none s).currentBotMessage = s.currentBotMessage ∧
    (handleMessage none s).log = s.log ++ ["Error parsing WebSocket message"] ∧
    (handleMessage none s).isLoading = false ∧
    (handleMessage none s).isTyping = false := by
  refine ⟨?_, rfl, rfl, rfl, rfl, rfl⟩
  rcases h2 with h2 | h2 <;> simp [handleMessage, h1, h2, h3]

/-- Claim C7 counterexample: a parsed frame carrying none of the three
recognized fields (such as the parse of a JSON object with only unrelated
keys) is dropped with NO logged warning: the state, the console log
included, is completely unchanged — contradicting the claim that every
unrecognizable frame is dropped with a logged warning. -/
theorem claim_C7_counterexample :
    handleMessage (some malformedFrame) initState = initState ∧
    (handleMessage (some malformedFrame) initState).log = [] := by
  exact ⟨by decide, by decide⟩

/-- Concrete instantiation of the theorem above. -/
theorem claim_C7_witness :
    (truthy malformedFrame.error = false ∧
      malformedFrame.chunk = JsVal.vUndefined ∧
      truthy malformedFrame.finish_reason = false) ∧
    (handleMessage (some malformedFrame) initState = initState ∧
      (handleMessage none initState).messages = initState.messages ∧
      (handleMessage none initState).currentBotMessage = initState.currentBotMessage ∧
      (handleMessage none initState).log =
        initState.log ++ ["Error parsing WebSocket message"] ∧
      (handleMessage none initState).isLoading = false ∧
      (handleMessage none initState).isTyping = false) :=
  ⟨⟨by decide, by decide, by decide⟩,
    claim_C7 initState malformedFrame (by decide) (Or.inl rfl) (by decide)⟩

/-- Claim C8: an error frame appends exactly one error-flagged, complete
bot message, clears the loading and typing states so a new turn can start
immediately, leaves the connection flag untouched, and performs no chunk
or completion processing: buffer, current bot message and timers are
unchanged. -/
theorem claim_C8 (s : ClientState) (e : String) (he : e ≠ "") :
    (handleMessage (some (errorFrame e)) s).messages =
      s.messages ++ [{ id := s.nextMsgId, content := cleanedContent (JsVal.vStr e) true, sender := "bot", isComplete := true, isError := true }] ∧
    (handleMessage (some (errorFrame e)) s).isLoading = false ∧
    (handleMessage (some (errorFrame e)) s).isTyping = false ∧
    (handleMessage (some (errorFrame e)) s).isConnected = s.isConnected ∧
    (handleMessage (some (errorFrame e)) s).currentBotMessage = s.currentBotMessage ∧
    (handleMessage (some (errorFrame e)) s).chunkBuffer = s.chunkBuffer ∧
    (handleMessage (some (errorFrame e)) s).bufferTimeout = s.bufferTimeout ∧
    (handleMessage (some (errorFrame e)) s).liveTimers = s.liveTimers := by
  have hred : handleMessage (some (errorFrame e)) s =
      { addMessage (JsVal.vStr e) "bot" true s with
          isTyping := false, isLoading := false } := by
    simp [handleMessage, errorFrame, truthy, he]
  rw [hred]
  exact ⟨rfl, rfl, rfl, rfl, rfl, rfl, rfl, rfl⟩

/-- Concrete instantiation of the theorem above. -/
theorem claim_C8_witness :
    ("Model not found" ≠ "") ∧
    (handleMessage (some (errorFrame "Model not found")) initState).messages =
      initState.messages ++ [{ id := initState.nextMsgId, content := cleanedContent (JsVal.vStr "Model not found") true, sender := "bot", isComplete := true, isError := true }] ∧
    (handleMessage (some (errorFrame "Model not found")) initState).isLoading = false ∧
    (handleMessage (some (errorFrame "Model not found")) initState).isTyping = false :=
  ⟨by decide,
    (claim_C8 initState "Model not found" (by decide)).1,
    (claim_C8 initState "Model not found" (by decide)).2.1,
    (claim_C8 initState "Model not found" (by decide)).2.2.1⟩

/-- Claim C9: `fetchAvailableModels` returns the built-in three-entry
default catalog when the request throws or the response is not ok, and on
success returns the response's models list, or an empty list when the
field is absent. -/
theorem claim_C9 :
    fetchAvailableModels none = defaultModels ∧
    (∀ r : ModelsResponse, r.ok = false → fetchAvailableModels (some r) = defaultModels) ∧
    (∀ r : ModelsResponse, r.ok = true → fetchAvailableModels (some r) = r.models.getD []) ∧
    defaultModels.length = 3 := by
  refine ⟨rfl, ?_, ?_, rfl⟩
  · intro r h; simp [fetchAvailableModels, h]
  · intro r h; simp [fetchAvailableModels, h]

/-- Concrete instantiation of the theorem above. -/
theorem claim_C9_witness :
    (({ ok := false, models := some defaultModels } : ModelsResponse).ok = false ∧
      ({ ok := true, models := none } : ModelsResponse).ok = true) ∧
    fetchAvailableModels (some { ok := false, models := some defaultModels }) =
      defaultModels ∧
    fetchAvailableModels (some { ok := true, models := none }) =
      ({ ok := true, models := none } : ModelsResponse).models.getD [] :=
  ⟨⟨rfl, rfl⟩,
    claim_C9.2.1 { ok := false, models := some defaultModels } rfl,
    claim_C9.2.2.1 { ok := true, models := none } rfl⟩

/-- Claim C10: after a successful refresh, the selected model is kept
when its id still occurs in the refreshed list; when it is absent and the
list is non-empty, the selection falls back to the first refreshed model
(and an empty refreshed list leaves the selection unchanged). -/
theorem claim_C10 (updated : List CatalogModel) (sel : String) :
    (updated.any (fun m => m.model_id == sel) = true →
      refreshSelectedModel updated sel = sel) ∧
    (∀ m0 ms, updated = m0 :: ms →
      updated.any (fun m => m.model_id == sel) = false →
      refreshSelectedModel updated sel = m0.model_id) ∧
    (updated = [] → refreshSelectedModel updated sel = sel) := by
  refine ⟨?_, ?_, ?_⟩
  · intro h; simp [refreshSelectedModel, h]
  · intro m0 ms hupd h
    subst hupd
    simp [refreshSelectedModel, h]
  · intro h
    subst h
    simp [refreshSelectedModel]

/-- Concrete instantiation of the theorem above. -/
theorem claim_C10_witness :
    (defaultModels.any (fun m => m.model_id == "gemma-7b-it") = true ∧
      defaultModels.any (fun m => m.model_id == "nope") = false) ∧
    refreshSelectedModel defaultModels "gemma-7b-it" = "gemma-7b-it" ∧
    refreshSelectedModel defaultModels "nope" = "llama3-8b-8192" := by
  refine ⟨⟨by decide, by decide⟩, ?_, ?_⟩
  · exact (claim_C10 defaultModels "gemma-7b-it").1 (by decide)
  · rw [(claim_C10 defaultModels "nope").2.1 _ _ rfl (by decide)]

end Konexion
